import Mathlib

/-!
Shallow embedding of the CSV-to-MongoDB import utility in
`students/franjaku/lesson05/database.py` and of the rentals part of the CSV
generator in `students/mattcasari/lesson07/assignment/csv_file_generator.py`.

Modelling choices, all taken from the source:
* A CSV cell as produced by `csv.DictReader` is a `String`, or `none` for the
  `restval` padding Python inserts when a data row is shorter than the header;
  rows are association lists from field names to such cells.
* `row[key]` is `rowGet`: it yields the stored value, or raises `KeyError`
  when the key is absent, mirrored by the `Except` monad.
* The document store and the filesystem are oracles passed in as parameters:
  `Store.insertMany` returns `none` when the pymongo call returns normally and
  `some e` when it raises exception `e`; `FileSystem.files` returns `none`
  when `open` would raise `FileNotFoundError`.
* Side effects that the claims talk about (opening/closing the connection,
  opening a file, issuing a bulk-insert call) are recorded in an event trace
  threaded through the functions.
* Randomness in the generator is a parameter: the list of (customer_id,
  product_id) pairs that `randint` indexing would have chosen.
-/

set_option autoImplicit false

namespace HPNorton

/-- A cell value as `csv.DictReader` yields it: the raw string from the file,
or `none` (Python `None`, the default `restval`) when a data row is shorter
than the header. -/
abbrev CellVal := Option String

/-- A data row after `csv.DictReader`: an association from field name to cell. -/
abbrev Row := List (String × CellVal)

/-- A mapped record, as handed to `insert_many`: same shape as a row. -/
abbrev Record := List (String × CellVal)

/-- The Python exceptions the embedded code can raise or receive from the
store: `KeyError` from `row[key]`, `TypeError` (the one class the importer
catches), `FileNotFoundError` from `open`, and any other exception class.
The `tag` fields make distinct exception objects distinguishable. -/
inductive PyExc where
  | keyError (key : String)
  | typeError (tag : Nat)
  | fileNotFound (path : String)
  | otherExc (tag : Nat)
deriving DecidableEq, Repr

/-- Whether an exception object is an instance of `TypeError`, the only class
named in the importer's `except` clauses. -/
def PyExc.isTypeError : PyExc → Bool
  | .typeError _ => true
  | _ => false

/-- A CSV file as text already split into lines and cells: the header row and
the data rows. -/
structure CSVFile where
  header : List String
  records : List (List String)
deriving DecidableEq, Repr

/-- One row as `csv.DictReader` builds it: header fields zipped with the
cells, short rows padded with `none` (`restval`), cells beyond the header
dropped (they go under the non-string `restkey`). -/
def dictRow (header : List String) (cells : List String) : Row :=
  header.zip (cells.map some ++ List.replicate (header.length - cells.length) none)

/-- All data rows a `csv.DictReader` over the file yields; blank records are
skipped as `DictReader.__next__` does. -/
def dictRows (f : CSVFile) : List Row :=
  (f.records.filter (fun r => !r.isEmpty)).map (dictRow f.header)

/-- Python `row[key]`: the stored cell, or a raised `KeyError`. -/
def rowGet (r : Row) (k : String) : Except PyExc CellVal :=
  match r.find? (fun p => p.1 == k) with
  | some p => .ok p.2
  | none => .error (.keyError k)

/-- The fields of the product dict literal in `import_data`, in evaluation
order. -/
def productFields : List String :=
  ["product_id", "description", "product_type", "quantity_available"]

/-- The fields of the customer dict literal in `import_data`, in evaluation
order. -/
def customerFields : List String :=
  ["customer_id", "name", "address", "phone_number", "email"]

/-- The fields of the rental dict literal in `import_data`, in evaluation
order. -/
def rentalFields : List String :=
  ["rental_id", "customer_id", "product_id"]

/-- A Python dict literal `\x7b k1: row[k1], k2: row[k2], ...\x7d`: values are
evaluated left to right, so the first missing key raises. -/
def buildRecord (fields : List String) (row : Row) : Except PyExc Record :=
  match fields with
  | [] => .ok []
  | k :: ks =>
    match rowGet row k with
    | .error e => .error e
    | .ok v =>
      match buildRecord ks row with
      | .error e => .error e
      | .ok rest => .ok ((k, v) :: rest)

/-- The three entity kinds `import_data` loads, in file-processing order. -/
inductive Kind where
  | product
  | customer
  | rental
deriving DecidableEq, Repr

/-- The dict-literal fields for each kind. -/
def Kind.fields : Kind → List String
  | .product => productFields
  | .customer => customerFields
  | .rental => rentalFields

/-- The MongoDB collection name each kind is inserted into. -/
def Kind.collection : Kind → String
  | .product => "product_data"
  | .customer => "customer_data"
  | .rental => "rental_data"

/-- The row-to-record mapping `import_data` performs for one kind: the dict
literal over that kind's fields. -/
def Kind.mapRow (k : Kind) (row : Row) : Except PyExc Record :=
  buildRecord k.fields row

/-- The `for row in reader: data.append(...)` loop: map every row, the first
raised exception propagating (the partially built list is discarded). -/
def mapRows (mapper : Row → Except PyExc Record) : List Row → Except PyExc (List Record)
  | [] => .ok []
  | r :: rs =>
    match mapper r with
    | .error e => .error e
    | .ok d =>
      match mapRows mapper rs with
      | .error e => .error e
      | .ok ds => .ok (d :: ds)

/-- The document store as the importer sees it: `insertMany coll docs` is
`none` when `coll.insert_many(docs)` returns normally, `some e` when it
raises `e`. -/
structure Store where
  insertMany : String → List Record → Option PyExc

/-- The filesystem as the importer sees it: `files path` is the parsed CSV
file at `path`, or `none` when `open(path)` raises `FileNotFoundError`. -/
structure FileSystem where
  files : String → Option CSVFile

/-- The externally visible events of one import run. -/
inductive Event where
  | openConn
  | closeConn
  | openFile (path : String)
  | insertCall (collection : String) (docs : List Record)
deriving DecidableEq, Repr

/-- One kind's stage of `import_data`: open the file, build the record list,
then `try: insert_many; count_list.append(len(data)) except TypeError as e:
error_list.append(e)`. Threads the count list, the error list and the event
trace; a `FileNotFoundError`, a `KeyError` from the dict literal, or a
non-`TypeError` insert exception propagates as `.error`. -/
def processKind (fs : FileSystem) (store : Store) (path : String) (k : Kind)
    (counts : List Nat) (errors : List PyExc) (tr : List Event) :
    Except PyExc (List Nat × List PyExc) × List Event :=
  match fs.files path with
  | none => (.error (.fileNotFound path), tr)
  | some file =>
    let tr1 := tr ++ [Event.openFile path]
    match mapRows k.mapRow (dictRows file) with
    | .error e => (.error e, tr1)
    | .ok docs =>
      let tr2 := tr1 ++ [Event.insertCall k.collection docs]
      match store.insertMany k.collection docs with
      | none => (.ok (counts ++ [docs.length], errors), tr2)
      | some e =>
        if e.isTypeError then (.ok (counts, errors ++ [e]), tr2)
        else (.error e, tr2)

/-- The body of the `with mongo:` block in `import_data`: the three stages in
file-processing order, an uncaught exception in one stage skipping the rest. -/
def importBody (fs : FileSystem) (store : Store)
    (dir pf cf rf : String) (tr : List Event) :
    Except PyExc (List Nat × List PyExc) × List Event :=
  match processKind fs store (dir ++ "/" ++ pf) .product [] [] tr with
  | (.error e, t1) => (.error e, t1)
  | (.ok (c1, e1), t1) =>
    match processKind fs store (dir ++ "/" ++ cf) .customer c1 e1 t1 with
    | (.error e, t2) => (.error e, t2)
    | (.ok (c2, e2), t2) =>
      processKind fs store (dir ++ "/" ++ rf) .rental c2 e2 t2

/-- `import_data(directory_name, product_file, customer_file, rentals_file)`:
opens the scoped Mongo connection, runs the three stages, and closes the
connection on exit whether the body returned or raised (the semantics of
`with mongo:`, whose `__exit__` calls `self.connection.close()`). The first
component is the returned pair `(tuple(count_list), tuple(error_list))`, or
the uncaught exception; the second is the event trace of the run. -/
def import_data (fs : FileSystem) (store : Store)
    (directory_name product_file customer_file rentals_file : String) :
    Except PyExc (List Nat × List PyExc) × List Event :=
  match importBody fs store directory_name product_file customer_file rentals_file
      [Event.openConn] with
  | (r, tr) => (r, tr ++ [Event.closeConn])

/-- Well-formedness of a CSV file for a kind expecting `fields`: the header
contains every expected field and no data row is shorter than the header. -/
def wellFormedFile (fields : List String) (f : CSVFile) : Bool :=
  fields.all (fun k => f.header.contains k) &&
  f.records.all (fun r => f.header.length ≤ r.length)

/-- The header row `generate_rentals` writes: the keys of its `rentals` dict,
in order. There is no `rental_id` column. -/
def rentalCSVHeader : List String :=
  ["customer_id", "product_id"]

/-- `generate_rentals` from `csv_file_generator.py`, the randomness abstracted
as the list of (customer_id, product_id) pairs its `randint` indexing picks:
it writes the two-column header and one two-cell data row per pair. -/
def generate_rentals (pairs : List (String × String)) : CSVFile :=
  { header := rentalCSVHeader
    records := pairs.map (fun p => [p.1, p.2]) }

/-- Lookup in a stored document, total (`none` when the field is absent). -/
def recordGet (r : Record) (k : String) : Option CellVal :=
  (r.find? (fun p => p.1 == k)).map (fun p => p.2)

/-- Whether a stored product document has `quantity_available` greater than
zero, reading the integer-like string. -/
def qtyAvailablePos (r : Record) : Bool :=
  match recordGet r "quantity_available" with
  | some (some s) =>
    match s.toNat? with
    | some n => decide (0 < n)
    | none => false
  | _ => false

/-- Modelled from the spec: the body of `show_available_products` is absent in
`database.py` (the function is a `pass` stub), so this follows the contract of
spec section 4.4 — return one mapping per product whose `quantity_available`
is greater than 0, each containing `product_id`, `description`,
`product_type` and `quantity_available`. The product collection's documents
are the parameter. -/
def show_available_products (products : List Record) : List Record :=
  (products.filter qtyAvailablePos).map
    (fun p => productFields.filterMap (fun k => (recordGet p k).map (fun v => (k, v))))

/-- The contribution of one kind's insert outcome to the returned count tuple:
a singleton count when the call returned, nothing when it raised. -/
def countsOf (o : Option PyExc) (n : Nat) : List Nat :=
  match o with
  | none => [n]
  | some _ => []

/-- The contribution of one kind's insert outcome to the returned error tuple:
nothing when the call returned, the caught object when it raised. -/
def errorsOf (o : Option PyExc) : List PyExc :=
  match o with
  | none => []
  | some e => [e]

/-! ### Concrete sample data (the spec's section 8 scenario) -/

def sampleProductFile : CSVFile :=
  ⟨productFields, [["P1", "Desk", "Furniture", "3"], ["P2", "Fan", "Electric", "0"]]⟩

def sampleCustomerFile : CSVFile :=
  ⟨customerFields, [["C1", "Jo", "1 Main St", "555-0100", "jo@example.com"]]⟩

def sampleRentalFile : CSVFile :=
  ⟨rentalFields, [["R1", "C1", "P1"]]⟩

/-- A product file whose header lacks `product_type` and `quantity_available`. -/
def badProductFile : CSVFile :=
  ⟨["product_id", "description"], [["P1", "Desk"]]⟩

def sampleFS : FileSystem :=
  ⟨fun p =>
    if p = "data/products.csv" then some sampleProductFile
    else if p = "data/customers.csv" then some sampleCustomerFile
    else if p = "data/rentals.csv" then some sampleRentalFile
    else none⟩

def badProductFS : FileSystem :=
  ⟨fun p =>
    if p = "data/products.csv" then some badProductFile
    else if p = "data/customers.csv" then some sampleCustomerFile
    else if p = "data/rentals.csv" then some sampleRentalFile
    else none⟩

def generatedRentalsFS : FileSystem :=
  ⟨fun p =>
    if p = "data/products.csv" then some sampleProductFile
    else if p = "data/customers.csv" then some sampleCustomerFile
    else if p = "data/rentals.csv" then some (generate_rentals [("C1", "P1")])
    else none⟩

/-- A customer file whose header lacks `address`, `phone_number`, `email`. -/
def badCustomerFile : CSVFile :=
  ⟨["customer_id", "name"], [["C1", "Jo"]]⟩

def badCustomerFS : FileSystem :=
  ⟨fun p =>
    if p = "data/products.csv" then some sampleProductFile
    else if p = "data/customers.csv" then some badCustomerFile
    else if p = "data/rentals.csv" then some sampleRentalFile
    else none⟩

/-- A store whose every insert call returns normally. -/
def acceptingStore : Store := ⟨fun _ _ => none⟩

/-- A store whose product insert raises a `TypeError`, all others returning. -/
def productTypeErrorStore : Store :=
  ⟨fun coll _ => if coll = "product_data" then some (.typeError 7) else none⟩

/-- A store whose product insert raises a non-`TypeError` exception. -/
def productOtherErrorStore : Store :=
  ⟨fun coll _ => if coll = "product_data" then some (.otherExc 3) else none⟩

/-- A store whose customer insert raises a non-`TypeError` exception. -/
def customerOtherErrorStore : Store :=
  ⟨fun coll _ => if coll = "customer_data" then some (.otherExc 4) else none⟩

/-- A store whose rental insert raises a non-`TypeError` exception. -/
def rentalOtherErrorStore : Store :=
  ⟨fun coll _ => if coll = "rental_data" then some (.otherExc 5) else none⟩

/-- The mapped records of `sampleProductFile`. -/
def samplePdocs : List Record :=
  [[("product_id", some "P1"), ("description", some "Desk"),
    ("product_type", some "Furniture"), ("quantity_available", some "3")],
   [("product_id", some "P2"), ("description", some "Fan"),
    ("product_type", some "Electric"), ("quantity_available", some "0")]]

/-- The mapped records of `sampleCustomerFile`. -/
def sampleCdocs : List Record :=
  [[("customer_id", some "C1"), ("name", some "Jo"), ("address", some "1 Main St"),
    ("phone_number", some "555-0100"), ("email", some "jo@example.com")]]

/-- The mapped records of `sampleRentalFile`. -/
def sampleRdocs : List Record :=
  [[("rental_id", some "R1"), ("customer_id", some "C1"), ("product_id", some "P1")]]

/-! ### Basic lemmas about row lookup and the dict literals -/

theorem rowGet_error_keyError (r : Row) (k : String) (e : PyExc)
    (h : rowGet r k = .error e) : e = .keyError k := by
  unfold rowGet at h
  cases hf : r.find? (fun p => p.1 == k) <;> rw [hf] at h <;> simp_all

theorem rowGet_dictRow_of_mem (header cells : List String) (k : String)
    (hk : k ∈ header) : ∃ v, rowGet (dictRow header cells) k = .ok v := by
  have hlen : header.length ≤
      (cells.map some ++ List.replicate (header.length - cells.length) (none : CellVal)).length := by
    simp only [List.length_append, List.length_map, List.length_replicate]
    omega
  have hmap : (dictRow header cells).map Prod.fst = header := by
    unfold dictRow
    exact List.map_fst_zip _ _ hlen
  have hkz : k ∈ (dictRow header cells).map Prod.fst := by rw [hmap]; exact hk
  obtain ⟨p, hp, hpk⟩ := List.mem_map.mp hkz
  have hex : ∃ x, x ∈ (dictRow header cells).find? (fun p => p.1 == k) := by
    have hs : ((dictRow header cells).find? (fun p => p.1 == k)).isSome :=
      List.find?_isSome.mpr ⟨p, hp, by simp [hpk]⟩
    exact Option.isSome_iff_exists.mp hs
  obtain ⟨q, hq⟩ := hex
  exact ⟨q.2, by unfold rowGet; rw [hq]⟩

theorem buildRecord_ok (fields : List String) (row : Row)
    (h : ∀ k ∈ fields, ∃ v, rowGet row k = .ok v) :
    ∃ d, buildRecord fields row = .ok d ∧ d.map Prod.fst = fields ∧
      ∀ p ∈ d, rowGet row p.1 = .ok p.2 := by
  induction fields with
  | nil => exact ⟨[], rfl, rfl, by simp⟩
  | cons k ks ih =>
    obtain ⟨v, hv⟩ := h k (List.mem_cons_self k ks)
    obtain ⟨d, hd, hkeys, hvals⟩ := ih (fun k' hk' => h k' (List.mem_cons_of_mem _ hk'))
    refine ⟨(k, v) :: d, by simp [buildRecord, hv, hd], by simp [hkeys], ?_⟩
    intro p hp
    rcases List.mem_cons.mp hp with h1 | h2
    · subst h1; exact hv
    · exact hvals p h2

theorem buildRecord_error_keyError (fields : List String) (row : Row) (e : PyExc)
    (h : buildRecord fields row = .error e) :
    ∃ k ∈ fields, e = .keyError k := by
  induction fields with
  | nil => simp [buildRecord] at h
  | cons k ks ih =>
    cases hg : rowGet row k with
    | error e' =>
      have hk := rowGet_error_keyError _ _ _ hg
      simp [buildRecord, hg] at h
      exact ⟨k, by simp, by rw [← h, hk]⟩
    | ok v =>
      cases hb : buildRecord ks row with
      | error e' =>
        simp [buildRecord, hg, hb] at h
        obtain ⟨k', hk', he'⟩ := ih (h ▸ hb)
        exact ⟨k', List.mem_cons_of_mem _ hk', he'⟩
      | ok d => simp [buildRecord, hg, hb] at h

theorem buildRecord_error_of_missing (fields : List String) (row : Row)
    (h : ∃ k ∈ fields, rowGet row k = .error (.keyError k)) :
    ∃ k' ∈ fields, buildRecord fields row = .error (.keyError k') := by
  induction fields with
  | nil => simp at h
  | cons k ks ih =>
    cases hg : rowGet row k with
    | error e =>
      have hk := rowGet_error_keyError _ _ _ hg
      exact ⟨k, by simp, by simp [buildRecord, hg, hk]⟩
    | ok v =>
      have hks : ∃ k0 ∈ ks, rowGet row k0 = .error (.keyError k0) := by
        obtain ⟨k0, hk0, hge⟩ := h
        rcases List.mem_cons.mp hk0 with rfl | hmem
        · rw [hg] at hge; cases hge
        · exact ⟨k0, hmem, hge⟩
      obtain ⟨k', hk', hb⟩ := ih hks
      exact ⟨k', List.mem_cons_of_mem _ hk', by simp [buildRecord, hg, hb]⟩

theorem mapRows_ok (mapper : Row → Except PyExc Record) (rows : List Row)
    (h : ∀ r ∈ rows, ∃ d, mapper r = .ok d) :
    ∃ ds, mapRows mapper rows = .ok ds ∧ ds.length = rows.length := by
  induction rows with
  | nil => exact ⟨[], rfl, rfl⟩
  | cons r rs ih =>
    obtain ⟨d, hd⟩ := h r (by simp)
    obtain ⟨ds, hds, hlen⟩ := ih (fun r' h' => h r' (by simp [h']))
    exact ⟨d :: ds, by simp [mapRows, hd, hds], by simp [hlen]⟩

theorem mapRows_error_of_exists (mapper : Row → Except PyExc Record) (rows : List Row)
    (h : ∃ r ∈ rows, ∃ e, mapper r = .error e) :
    ∃ e, mapRows mapper rows = .error e ∧ ∃ r ∈ rows, mapper r = .error e := by
  induction rows with
  | nil => simp at h
  | cons r rs ih =>
    cases hm : mapper r with
    | error e => exact ⟨e, by simp [mapRows, hm], r, by simp, hm⟩
    | ok d =>
      have hrs : ∃ r0 ∈ rs, ∃ e, mapper r0 = .error e := by
        obtain ⟨r0, hr0, e0, he0⟩ := h
        rcases List.mem_cons.mp hr0 with rfl | hmem
        · rw [hm] at he0; cases he0
        · exact ⟨r0, hmem, e0, he0⟩
      obtain ⟨e, he, r', hr', hm'⟩ := ih hrs
      exact ⟨e, by simp [mapRows, hm, he], r', List.mem_cons_of_mem _ hr', hm'⟩

theorem dictRows_row_fields (fields : List String) (f : CSVFile)
    (hw : wellFormedFile fields f = true) (r : Row) (hr : r ∈ dictRows f)
    (k : String) (hk : k ∈ fields) : ∃ v, rowGet r k = .ok v := by
  unfold wellFormedFile at hw
  simp only [Bool.and_eq_true, List.all_eq_true] at hw
  obtain ⟨hfields, _⟩ := hw
  unfold dictRows at hr
  obtain ⟨cells, _, rfl⟩ := List.mem_map.mp hr
  refine rowGet_dictRow_of_mem f.header cells k ?_
  have := hfields k hk
  simpa using this

theorem dictRows_length_of_wf (fields : List String) (f : CSVFile)
    (hne : fields ≠ []) (hw : wellFormedFile fields f = true) :
    (dictRows f).length = f.records.length := by
  unfold wellFormedFile at hw
  simp only [Bool.and_eq_true, List.all_eq_true] at hw
  obtain ⟨hfields, hlen⟩ := hw
  have hh : 0 < f.header.length := by
    cases fields with
    | nil => exact absurd rfl hne
    | cons k ks =>
      have hmem : k ∈ f.header := by simpa using hfields k (by simp)
      exact List.length_pos.mpr (List.ne_nil_of_mem hmem)
  have hkeep : ∀ r ∈ f.records, (!r.isEmpty) = true := by
    intro r hr
    have := hlen r hr
    cases r with
    | nil =>
      exfalso
      simp only [List.length_nil, decide_eq_true_eq] at this
      omega
    | cons a as => simp
  unfold dictRows
  rw [List.length_map, List.filter_eq_self.mpr hkeep]

/-! ### Structural lemmas about the three stages of `import_data` -/

theorem processKind_insert_ok (fs : FileSystem) (store : Store) (path : String) (k : Kind)
    (counts : List Nat) (errors : List PyExc) (tr : List Event) (f : CSVFile)
    (docs : List Record)
    (hf : fs.files path = some f)
    (hm : mapRows k.mapRow (dictRows f) = .ok docs)
    (hs : store.insertMany k.collection docs = none) :
    processKind fs store path k counts errors tr =
      (.ok (counts ++ [docs.length], errors),
       tr ++ [Event.openFile path, Event.insertCall k.collection docs]) := by
  simp [processKind, hf, hm, hs]

theorem processKind_insert_typeError (fs : FileSystem) (store : Store) (path : String)
    (k : Kind) (counts : List Nat) (errors : List PyExc) (tr : List Event) (f : CSVFile)
    (docs : List Record) (e : PyExc)
    (hf : fs.files path = some f)
    (hm : mapRows k.mapRow (dictRows f) = .ok docs)
    (hs : store.insertMany k.collection docs = some e)
    (ht : e.isTypeError = true) :
    processKind fs store path k counts errors tr =
      (.ok (counts, errors ++ [e]),
       tr ++ [Event.openFile path, Event.insertCall k.collection docs]) := by
  simp [processKind, hf, hm, hs, ht]

theorem processKind_insert_raises (fs : FileSystem) (store : Store) (path : String)
    (k : Kind) (counts : List Nat) (errors : List PyExc) (tr : List Event) (f : CSVFile)
    (docs : List Record) (e : PyExc)
    (hf : fs.files path = some f)
    (hm : mapRows k.mapRow (dictRows f) = .ok docs)
    (hs : store.insertMany k.collection docs = some e)
    (ht : e.isTypeError = false) :
    processKind fs store path k counts errors tr =
      (.error e, tr ++ [Event.openFile path, Event.insertCall k.collection docs]) := by
  simp [processKind, hf, hm, hs, ht]

theorem processKind_map_raises (fs : FileSystem) (store : Store) (path : String)
    (k : Kind) (counts : List Nat) (errors : List PyExc) (tr : List Event) (f : CSVFile)
    (e : PyExc)
    (hf : fs.files path = some f)
    (hm : mapRows k.mapRow (dictRows f) = .error e) :
    processKind fs store path k counts errors tr = (.error e, tr ++ [Event.openFile path]) := by
  simp [processKind, hf, hm]

theorem processKind_cases (fs : FileSystem) (store : Store) (path : String) (k : Kind)
    (counts : List Nat) (errors : List PyExc) (tr : List Event) :
    (∃ (e : PyExc) (t : List Event),
      processKind fs store path k counts errors tr = (.error e, t)) ∨
    (∃ (docs : List Record) (t : List Event), processKind fs store path k counts errors tr =
      (.ok (counts ++ [docs.length], errors), t)) ∨
    (∃ (e : PyExc) (t : List Event), e.isTypeError = true ∧
      processKind fs store path k counts errors tr = (.ok (counts, errors ++ [e]), t)) := by
  cases hf : fs.files path with
  | none => exact Or.inl ⟨.fileNotFound path, tr, by simp [processKind, hf]⟩
  | some f =>
    cases hm : mapRows k.mapRow (dictRows f) with
    | error e =>
      exact Or.inl ⟨e, tr ++ [Event.openFile path],
        processKind_map_raises fs store path k counts errors tr f e hf hm⟩
    | ok docs =>
      cases hs : store.insertMany k.collection docs with
      | none =>
        exact Or.inr (Or.inl ⟨docs, tr ++ [Event.openFile path,
          Event.insertCall k.collection docs],
          processKind_insert_ok fs store path k counts errors tr f docs hf hm hs⟩)
      | some e =>
        cases ht : e.isTypeError with
        | true =>
          exact Or.inr (Or.inr ⟨e, tr ++ [Event.openFile path,
            Event.insertCall k.collection docs], ht,
            processKind_insert_typeError fs store path k counts errors tr f docs e hf hm hs ht⟩)
        | false =>
          exact Or.inl ⟨e, tr ++ [Event.openFile path, Event.insertCall k.collection docs],
            processKind_insert_raises fs store path k counts errors tr f docs e hf hm hs ht⟩

theorem processKind_ok_length (fs : FileSystem) (store : Store) (path : String) (k : Kind)
    (counts : List Nat) (errors : List PyExc) (tr : List Event)
    (c' : List Nat) (e' : List PyExc) (tr' : List Event)
    (h : processKind fs store path k counts errors tr = (.ok (c', e'), tr')) :
    c'.length + e'.length = counts.length + errors.length + 1 := by
  rcases processKind_cases fs store path k counts errors tr with
      ⟨e, t, he⟩ | ⟨docs, t, hok⟩ | ⟨e, t, ht, hok⟩
  · rw [he] at h; simp at h
  · rw [hok] at h
    simp only [Prod.mk.injEq, Except.ok.injEq] at h
    obtain ⟨⟨hc, he2⟩, _⟩ := h
    rw [← hc, ← he2]
    simp
    omega
  · rw [hok] at h
    simp only [Prod.mk.injEq, Except.ok.injEq] at h
    obtain ⟨⟨hc, he2⟩, _⟩ := h
    rw [← hc, ← he2]
    simp
    omega

theorem processKind_ok_errors_typeError (fs : FileSystem) (store : Store) (path : String)
    (k : Kind) (counts : List Nat) (errors : List PyExc) (tr : List Event)
    (c' : List Nat) (e' : List PyExc) (tr' : List Event)
    (h : processKind fs store path k counts errors tr = (.ok (c', e'), tr'))
    (hall : ∀ x ∈ errors, x.isTypeError = true) :
    ∀ x ∈ e', x.isTypeError = true := by
  rcases processKind_cases fs store path k counts errors tr with
      ⟨e, t, he⟩ | ⟨docs, t, hok⟩ | ⟨e, t, ht, hok⟩
  · rw [he] at h; simp at h
  · rw [hok] at h
    simp only [Prod.mk.injEq, Except.ok.injEq] at h
    obtain ⟨⟨_, he2⟩, _⟩ := h
    rw [← he2]
    exact hall
  · rw [hok] at h
    simp only [Prod.mk.injEq, Except.ok.injEq] at h
    obtain ⟨⟨_, he2⟩, _⟩ := h
    rw [← he2]
    intro x hx
    rcases List.mem_append.mp hx with hx1 | hx2
    · exact hall x hx1
    · rw [List.mem_singleton.mp hx2]; exact ht

theorem processKind_trace_events (fs : FileSystem) (store : Store) (path : String) (k : Kind)
    (counts : List Nat) (errors : List PyExc) (tr : List Event) :
    ∃ new, (processKind fs store path k counts errors tr).2 = tr ++ new ∧
      ∀ ev ∈ new, ev = Event.openFile path ∨
        ∃ docs, ev = Event.insertCall k.collection docs := by
  cases hf : fs.files path with
  | none => exact ⟨[], by simp [processKind, hf], by simp⟩
  | some f =>
    cases hm : mapRows k.mapRow (dictRows f) with
    | error e =>
      refine ⟨[Event.openFile path], ?_, by simp⟩
      rw [processKind_map_raises fs store path k counts errors tr f e hf hm]
    | ok docs =>
      have hmem : ∀ ev ∈ [Event.openFile path, Event.insertCall k.collection docs],
          ev = Event.openFile path ∨ ∃ ds, ev = Event.insertCall k.collection ds := by
        intro ev hev
        simp only [List.mem_cons, List.not_mem_nil, or_false] at hev
        rcases hev with rfl | rfl
        · exact Or.inl rfl
        · exact Or.inr ⟨docs, rfl⟩
      cases hs : store.insertMany k.collection docs with
      | none =>
        refine ⟨[Event.openFile path, Event.insertCall k.collection docs], ?_, hmem⟩
        rw [processKind_insert_ok fs store path k counts errors tr f docs hf hm hs]
      | some e =>
        cases ht : e.isTypeError with
        | true =>
          refine ⟨[Event.openFile path, Event.insertCall k.collection docs], ?_, hmem⟩
          rw [processKind_insert_typeError fs store path k counts errors tr f docs e hf hm hs ht]
        | false =>
          refine ⟨[Event.openFile path, Event.insertCall k.collection docs], ?_, hmem⟩
          rw [processKind_insert_raises fs store path k counts errors tr f docs e hf hm hs ht]

theorem import_data_eq_body (fs : FileSystem) (store : Store) (dir pf cf rf : String) :
    import_data fs store dir pf cf rf =
      ((importBody fs store dir pf cf rf [Event.openConn]).1,
       (importBody fs store dir pf cf rf [Event.openConn]).2 ++ [Event.closeConn]) := by
  unfold import_data
  rcases importBody fs store dir pf cf rf [Event.openConn] with ⟨r, tr⟩
  rfl

theorem importBody_stage1_raises (fs : FileSystem) (store : Store) (dir pf cf rf : String)
    (tr t1 : List Event) (e : PyExc)
    (h1 : processKind fs store (dir ++ "/" ++ pf) .product [] [] tr = (.error e, t1)) :
    importBody fs store dir pf cf rf tr = (.error e, t1) := by
  simp only [importBody, h1]

theorem importBody_stage2_raises (fs : FileSystem) (store : Store) (dir pf cf rf : String)
    (tr t1 t2 : List Event) (c1 : List Nat) (e1 : List PyExc) (e : PyExc)
    (h1 : processKind fs store (dir ++ "/" ++ pf) .product [] [] tr = (.ok (c1, e1), t1))
    (h2 : processKind fs store (dir ++ "/" ++ cf) .customer c1 e1 t1 = (.error e, t2)) :
    importBody fs store dir pf cf rf tr = (.error e, t2) := by
  simp only [importBody, h1, h2]

theorem importBody_stage3_result (fs : FileSystem) (store : Store) (dir pf cf rf : String)
    (tr t1 t2 : List Event) (c1 c2 : List Nat) (e1 e2 : List PyExc)
    (h1 : processKind fs store (dir ++ "/" ++ pf) .product [] [] tr = (.ok (c1, e1), t1))
    (h2 : processKind fs store (dir ++ "/" ++ cf) .customer c1 e1 t1 = (.ok (c2, e2), t2)) :
    importBody fs store dir pf cf rf tr =
      processKind fs store (dir ++ "/" ++ rf) .rental c2 e2 t2 := by
  simp only [importBody, h1, h2]

theorem importBody_ok_cases (fs : FileSystem) (store : Store) (dir pf cf rf : String)
    (tr : List Event) (r : List Nat × List PyExc) (tr' : List Event)
    (h : importBody fs store dir pf cf rf tr = (.ok r, tr')) :
    ∃ c1 e1 t1 c2 e2 t2,
      processKind fs store (dir ++ "/" ++ pf) .product [] [] tr = (.ok (c1, e1), t1) ∧
      processKind fs store (dir ++ "/" ++ cf) .customer c1 e1 t1 = (.ok (c2, e2), t2) ∧
      processKind fs store (dir ++ "/" ++ rf) .rental c2 e2 t2 = (.ok r, tr') := by
  rcases hs1 : processKind fs store (dir ++ "/" ++ pf) .product [] [] tr with ⟨r1, t1⟩
  cases r1 with
  | error e =>
    rw [importBody_stage1_raises fs store dir pf cf rf tr t1 e hs1] at h
    simp at h
  | ok p1 =>
    rcases p1 with ⟨c1, e1⟩
    rcases hs2 : processKind fs store (dir ++ "/" ++ cf) .customer c1 e1 t1 with ⟨r2, t2⟩
    cases r2 with
    | error e =>
      rw [importBody_stage2_raises fs store dir pf cf rf tr t1 t2 c1 e1 e hs1 hs2] at h
      simp at h
    | ok p2 =>
      rcases p2 with ⟨c2, e2⟩
      rw [importBody_stage3_result fs store dir pf cf rf tr t1 t2 c1 c2 e1 e2 hs1 hs2] at h
      exact ⟨c1, e1, t1, c2, e2, t2, rfl, hs2, h⟩

theorem importBody_trace_extends (fs : FileSystem) (store : Store) (dir pf cf rf : String)
    (tr : List Event) :
    ∃ new, (importBody fs store dir pf cf rf tr).2 = tr ++ new := by
  obtain ⟨n1, h1, _⟩ := processKind_trace_events fs store (dir ++ "/" ++ pf) .product [] [] tr
  rcases hs1 : processKind fs store (dir ++ "/" ++ pf) .product [] [] tr with ⟨r1, t1⟩
  rw [hs1] at h1
  cases r1 with
  | error e =>
    refine ⟨n1, ?_⟩
    rw [importBody_stage1_raises fs store dir pf cf rf tr t1 e hs1]
    exact h1
  | ok p1 =>
    rcases p1 with ⟨c1, e1⟩
    obtain ⟨n2, h2, _⟩ := processKind_trace_events fs store (dir ++ "/" ++ cf) .customer c1 e1 t1
    rcases hs2 : processKind fs store (dir ++ "/" ++ cf) .customer c1 e1 t1 with ⟨r2, t2⟩
    rw [hs2] at h2
    cases r2 with
    | error e =>
      refine ⟨n1 ++ n2, ?_⟩
      rw [importBody_stage2_raises fs store dir pf cf rf tr t1 t2 c1 e1 e hs1 hs2]
      show t2 = tr ++ (n1 ++ n2)
      rw [← List.append_assoc]
      simp only [Prod.snd] at h1 h2
      rw [h2, h1]
    | ok p2 =>
      rcases p2 with ⟨c2, e2⟩
      obtain ⟨n3, h3, _⟩ := processKind_trace_events fs store (dir ++ "/" ++ rf) .rental c2 e2 t2
      refine ⟨n1 ++ n2 ++ n3, ?_⟩
      rw [importBody_stage3_result fs store dir pf cf rf tr t1 t2 c1 c2 e1 e2 hs1 hs2]
      simp only [Prod.snd] at h1 h2
      rw [h3, h2, h1]
      simp [List.append_assoc]

theorem mapRows_wf (k : Kind) (f : CSVFile)
    (hw : wellFormedFile k.fields f = true) :
    ∃ docs, mapRows k.mapRow (dictRows f) = .ok docs ∧ docs.length = f.records.length := by
  have hmap : ∀ r ∈ dictRows f, ∃ d, k.mapRow r = .ok d := by
    intro r hr
    obtain ⟨d, hd, _, _⟩ := buildRecord_ok k.fields r
      (fun fld hfld => dictRows_row_fields k.fields f hw r hr fld hfld)
    exact ⟨d, hd⟩
  obtain ⟨docs, hds, hlen⟩ := mapRows_ok k.mapRow (dictRows f) hmap
  have hne : k.fields ≠ [] := by
    cases k <;> simp [Kind.fields, productFields, customerFields, rentalFields]
  exact ⟨docs, hds, by rw [hlen, dictRows_length_of_wf k.fields f hne hw]⟩

/-! ### The claims -/

/-- C1: for a directory holding three well-formed CSV files with N, M, K data
rows, when every bulk insert the store receives succeeds, `import_data`
returns counts = (N, M, K) and errors = (); a header-only file (zero rows)
contributes count 0 and no error. -/
theorem import_data_wellFormed_counts
    (fs : FileSystem) (store : Store) (dir pf cf rf : String) (pF cF rF : CSVFile)
    (hp : fs.files (dir ++ "/" ++ pf) = some pF)
    (hc : fs.files (dir ++ "/" ++ cf) = some cF)
    (hr : fs.files (dir ++ "/" ++ rf) = some rF)
    (hwp : wellFormedFile productFields pF = true)
    (hwc : wellFormedFile customerFields cF = true)
    (hwr : wellFormedFile rentalFields rF = true)
    (hstore : ∀ coll docs, store.insertMany coll docs = none) :
    (import_data fs store dir pf cf rf).1 =
      .ok ([pF.records.length, cF.records.length, rF.records.length], []) := by
  obtain ⟨pdocs, hmp, hlp⟩ := mapRows_wf .product pF hwp
  obtain ⟨cdocs, hmc, hlc⟩ := mapRows_wf .customer cF hwc
  obtain ⟨rdocs, hmr, hlr⟩ := mapRows_wf .rental rF hwr
  simp only [import_data, importBody, processKind, hp, hc, hr, hmp, hmc, hmr, hstore,
    hlp, hlc, hlr, List.nil_append, List.cons_append, List.append_nil, List.singleton_append]

/-- C1 witness: the spec's concrete scenario, with an all-accepting store. -/
theorem import_data_wellFormed_counts_witness :
    (import_data sampleFS acceptingStore "data" "products.csv" "customers.csv"
      "rentals.csv").1 = .ok ([2, 1, 1], []) :=
  import_data_wellFormed_counts sampleFS acceptingStore "data" "products.csv"
    "customers.csv" "rentals.csv" sampleProductFile sampleCustomerFile sampleRentalFile
    rfl rfl rfl rfl rfl rfl (fun _ _ => rfl)

/-- C5: a row mapping holding every expected field of its kind is mapped to a
record whose keys are exactly the declared fields of that kind, in order
(extra fields dropped), and whose values are the row's cell values unchanged. -/
theorem kind_mapRow_exact_fields (k : Kind) (row : Row)
    (h : ∀ fld ∈ k.fields, ∃ v, rowGet row fld = .ok v) :
    ∃ d, k.mapRow row = .ok d ∧ d.map Prod.fst = k.fields ∧
      ∀ p ∈ d, rowGet row p.1 = .ok p.2 :=
  buildRecord_ok k.fields row h

/-- C5 witness: the product mapping on a row with an extra, unrecognized
field. -/
theorem kind_mapRow_exact_fields_witness :
    ∃ d, Kind.mapRow .product
        (dictRow (productFields ++ ["extra_col"]) ["P1", "Desk", "Furniture", "3", "junk"]) =
          .ok d ∧
      d.map Prod.fst = Kind.fields .product ∧
      ∀ p ∈ d, rowGet
        (dictRow (productFields ++ ["extra_col"]) ["P1", "Desk", "Furniture", "3", "junk"])
        p.1 = .ok p.2 :=
  kind_mapRow_exact_fields .product
    (dictRow (productFields ++ ["extra_col"]) ["P1", "Desk", "Furniture", "3", "junk"])
    (by
      intro fld hfld
      simp only [Kind.fields, productFields, List.mem_cons, List.not_mem_nil, or_false] at hfld
      rcases hfld with rfl | rfl | rfl | rfl
      · exact ⟨some "P1", rfl⟩
      · exact ⟨some "Desk", rfl⟩
      · exact ⟨some "Furniture", rfl⟩
      · exact ⟨some "3", rfl⟩)

/-- C6: when a kind's bulk insert call returns, the count appended for it is
the number of mapped records submitted (the length of the in-memory list
built from the file); when the call raises the recovered class, no count is
appended for that kind. -/
theorem processKind_count_semantics (fs : FileSystem) (store : Store) (path : String)
    (k : Kind) (counts : List Nat) (errors : List PyExc) (tr : List Event)
    (f : CSVFile) (docs : List Record)
    (hf : fs.files path = some f)
    (hm : mapRows k.mapRow (dictRows f) = .ok docs) :
    (store.insertMany k.collection docs = none →
      (processKind fs store path k counts errors tr).1 =
        .ok (counts ++ [docs.length], errors))
    ∧ (∀ e, store.insertMany k.collection docs = some e → e.isTypeError = true →
      (processKind fs store path k counts errors tr).1 = .ok (counts, errors ++ [e])) := by
  constructor
  · intro hs
    rw [processKind_insert_ok fs store path k counts errors tr f docs hf hm hs]
  · intro e hs ht
    rw [processKind_insert_typeError fs store path k counts errors tr f docs e hf hm hs ht]

/-- C6 witness: the sample product file under an accepting store and under a
store raising `TypeError` on the product insert. -/
theorem processKind_count_semantics_witness :
    ((processKind sampleFS acceptingStore "data/products.csv" .product [] [] []).1 =
      .ok ([2], []))
    ∧ ((processKind sampleFS productTypeErrorStore "data/products.csv" .product [] [] []).1 =
      .ok ([], [.typeError 7])) := by
  constructor
  · exact (processKind_count_semantics sampleFS acceptingStore "data/products.csv" .product
      [] [] [] sampleProductFile samplePdocs rfl rfl).1 rfl
  · exact (processKind_count_semantics sampleFS productTypeErrorStore "data/products.csv"
      .product [] [] [] sampleProductFile samplePdocs rfl rfl).2 (.typeError 7) rfl rfl

/-- C7: every run of `import_data` opens the store connection first and closes
it last, whether the body returned normally or raised: the event trace starts
with the connection opening and ends with the connection closing. -/
theorem import_data_connection_closed (fs : FileSystem) (store : Store)
    (dir pf cf rf : String) :
    ∃ mid, (import_data fs store dir pf cf rf).2 =
      Event.openConn :: (mid ++ [Event.closeConn]) := by
  obtain ⟨new, h⟩ := importBody_trace_extends fs store dir pf cf rf [Event.openConn]
  refine ⟨new, ?_⟩
  rw [import_data_eq_body]
  dsimp only
  rw [h]
  simp

/-- C9: whenever `import_data` returns normally, each of the three kinds
contributed exactly one entry to exactly one of the two result tuples:
the counts length plus the errors length is 3. -/
theorem import_data_counts_errors_length_three
    (fs : FileSystem) (store : Store) (dir pf cf rf : String)
    (counts : List Nat) (errs : List PyExc)
    (h : (import_data fs store dir pf cf rf).1 = .ok (counts, errs)) :
    counts.length + errs.length = 3 := by
  rw [import_data_eq_body] at h
  dsimp only at h
  rcases hb : importBody fs store dir pf cf rf [Event.openConn] with ⟨r, tr⟩
  rw [hb] at h
  dsimp only at h
  subst h
  obtain ⟨c1, e1, t1, c2, e2, t2, h1, h2, h3⟩ :=
    importBody_ok_cases fs store dir pf cf rf [Event.openConn] (counts, errs) tr hb
  have l1 := processKind_ok_length fs store (dir ++ "/" ++ pf) .product [] []
    [Event.openConn] c1 e1 t1 h1
  have l2 := processKind_ok_length fs store (dir ++ "/" ++ cf) .customer c1 e1 t1
    c2 e2 t2 h2
  have l3 := processKind_ok_length fs store (dir ++ "/" ++ rf) .rental c2 e2 t2
    counts errs tr h3
  simp only [List.length_nil] at l1
  omega

/-- C9 witness: the run in which the product insert raises a recovered
`TypeError` has two counts and one error. -/
theorem import_data_counts_errors_length_three_witness :
    ([1, 1] : List Nat).length + ([PyExc.typeError 7] : List PyExc).length = 3 :=
  import_data_counts_errors_length_three sampleFS productTypeErrorStore "data"
    "products.csv" "customers.csv" "rentals.csv" [1, 1] [.typeError 7] rfl

/-- C2: when each kind's insert outcome is either success or a recovered
`TypeError`, every failed kind contributes its raised error object (and no
count) while every successful kind contributes its count, both tuples kept in
file-processing order; all three files are still opened and all three insert
calls still attempted. -/
theorem import_data_isolates_insert_failures
    (fs : FileSystem) (store : Store) (dir pf cf rf : String) (pF cF rF : CSVFile)
    (pdocs cdocs rdocs : List Record) (op oc oR : Option PyExc)
    (hp : fs.files (dir ++ "/" ++ pf) = some pF)
    (hc : fs.files (dir ++ "/" ++ cf) = some cF)
    (hr : fs.files (dir ++ "/" ++ rf) = some rF)
    (hmp : mapRows (Kind.mapRow .product) (dictRows pF) = .ok pdocs)
    (hmc : mapRows (Kind.mapRow .customer) (dictRows cF) = .ok cdocs)
    (hmr : mapRows (Kind.mapRow .rental) (dictRows rF) = .ok rdocs)
    (hop : store.insertMany "product_data" pdocs = op)
    (hoc : store.insertMany "customer_data" cdocs = oc)
    (hoR : store.insertMany "rental_data" rdocs = oR)
    (hopT : ∀ e, op = some e → e.isTypeError = true)
    (hocT : ∀ e, oc = some e → e.isTypeError = true)
    (hoRT : ∀ e, oR = some e → e.isTypeError = true) :
    (import_data fs store dir pf cf rf).1 =
      .ok (countsOf op pdocs.length ++ countsOf oc cdocs.length ++
            countsOf oR rdocs.length,
           errorsOf op ++ errorsOf oc ++ errorsOf oR)
    ∧ (import_data fs store dir pf cf rf).2 =
      [Event.openConn, Event.openFile (dir ++ "/" ++ pf),
       Event.insertCall "product_data" pdocs, Event.openFile (dir ++ "/" ++ cf),
       Event.insertCall "customer_data" cdocs, Event.openFile (dir ++ "/" ++ rf),
       Event.insertCall "rental_data" rdocs, Event.closeConn] := by
  have h1 : processKind fs store (dir ++ "/" ++ pf) .product [] [] [Event.openConn] =
      (.ok (countsOf op pdocs.length, errorsOf op),
       [Event.openConn, Event.openFile (dir ++ "/" ++ pf),
        Event.insertCall "product_data" pdocs]) := by
    cases op with
    | none =>
      simpa [countsOf, errorsOf, Kind.collection] using
        processKind_insert_ok fs store (dir ++ "/" ++ pf) .product [] [] [Event.openConn]
          pF pdocs hp hmp hop
    | some e =>
      have ht := hopT e rfl
      simpa [countsOf, errorsOf, Kind.collection] using
        processKind_insert_typeError fs store (dir ++ "/" ++ pf) .product [] []
          [Event.openConn] pF pdocs e hp hmp hop ht
  have h2 : processKind fs store (dir ++ "/" ++ cf) .customer
      (countsOf op pdocs.length) (errorsOf op)
      [Event.openConn, Event.openFile (dir ++ "/" ++ pf),
       Event.insertCall "product_data" pdocs] =
      (.ok (countsOf op pdocs.length ++ countsOf oc cdocs.length,
            errorsOf op ++ errorsOf oc),
       [Event.openConn, Event.openFile (dir ++ "/" ++ pf),
        Event.insertCall "product_data" pdocs, Event.openFile (dir ++ "/" ++ cf),
        Event.insertCall "customer_data" cdocs]) := by
    cases oc with
    | none =>
      simpa [countsOf, errorsOf, Kind.collection] using
        processKind_insert_ok fs store (dir ++ "/" ++ cf) .customer
          (countsOf op pdocs.length) (errorsOf op)
          [Event.openConn, Event.openFile (dir ++ "/" ++ pf),
           Event.insertCall "product_data" pdocs] cF cdocs hc hmc hoc
    | some e =>
      have ht := hocT e rfl
      simpa [countsOf, errorsOf, Kind.collection] using
        processKind_insert_typeError fs store (dir ++ "/" ++ cf) .customer
          (countsOf op pdocs.length) (errorsOf op)
          [Event.openConn, Event.openFile (dir ++ "/" ++ pf),
           Event.insertCall "product_data" pdocs] cF cdocs e hc hmc hoc ht
  have h3 : processKind fs store (dir ++ "/" ++ rf) .rental
      (countsOf op pdocs.length ++ countsOf oc cdocs.length)
      (errorsOf op ++ errorsOf oc)
      [Event.openConn, Event.openFile (dir ++ "/" ++ pf),
       Event.insertCall "product_data" pdocs, Event.openFile (dir ++ "/" ++ cf),
       Event.insertCall "customer_data" cdocs] =
      (.ok (countsOf op pdocs.length ++ countsOf oc cdocs.length ++
              countsOf oR rdocs.length,
            errorsOf op ++ errorsOf oc ++ errorsOf oR),
       [Event.openConn, Event.openFile (dir ++ "/" ++ pf),
        Event.insertCall "product_data" pdocs, Event.openFile (dir ++ "/" ++ cf),
        Event.insertCall "customer_data" cdocs, Event.openFile (dir ++ "/" ++ rf),
        Event.insertCall "rental_data" rdocs]) := by
    cases oR with
    | none =>
      simpa [countsOf, errorsOf, Kind.collection] using
        processKind_insert_ok fs store (dir ++ "/" ++ rf) .rental
          (countsOf op pdocs.length ++ countsOf oc cdocs.length)
          (errorsOf op ++ errorsOf oc)
          [Event.openConn, Event.openFile (dir ++ "/" ++ pf),
           Event.insertCall "product_data" pdocs, Event.openFile (dir ++ "/" ++ cf),
           Event.insertCall "customer_data" cdocs] rF rdocs hr hmr hoR
    | some e =>
      have ht := hoRT e rfl
      simpa [countsOf, errorsOf, Kind.collection] using
        processKind_insert_typeError fs store (dir ++ "/" ++ rf) .rental
          (countsOf op pdocs.length ++ countsOf oc cdocs.length)
          (errorsOf op ++ errorsOf oc)
          [Event.openConn, Event.openFile (dir ++ "/" ++ pf),
           Event.insertCall "product_data" pdocs, Event.openFile (dir ++ "/" ++ cf),
           Event.insertCall "customer_data" cdocs] rF rdocs e hr hmr hoR ht
  have hbody := importBody_stage3_result fs store dir pf cf rf [Event.openConn] _ _ _ _ _ _
    h1 h2
  rw [import_data_eq_body]
  constructor
  · dsimp only
    rw [hbody, h3]
  · dsimp only
    rw [hbody, h3]
    simp

/-- C2 witness: product insert raises a recovered `TypeError`, customer and
rental succeed. -/
theorem import_data_isolates_insert_failures_witness :
    (import_data sampleFS productTypeErrorStore "data" "products.csv" "customers.csv"
      "rentals.csv").1 = .ok ([1, 1], [.typeError 7])
    ∧ (import_data sampleFS productTypeErrorStore "data" "products.csv" "customers.csv"
      "rentals.csv").2 =
      [Event.openConn, Event.openFile "data/products.csv",
       Event.insertCall "product_data" samplePdocs, Event.openFile "data/customers.csv",
       Event.insertCall "customer_data" sampleCdocs, Event.openFile "data/rentals.csv",
       Event.insertCall "rental_data" sampleRdocs, Event.closeConn] := by
  have h := import_data_isolates_insert_failures sampleFS productTypeErrorStore "data"
    "products.csv" "customers.csv" "rentals.csv" sampleProductFile sampleCustomerFile
    sampleRentalFile samplePdocs sampleCdocs sampleRdocs (some (.typeError 7)) none none
    rfl rfl rfl rfl rfl rfl rfl rfl rfl
    (fun e he => by cases he; rfl) (fun e he => by cases he) (fun e he => by cases he)
  exact h

/-- C3: only the recovered insert-call failure class (`TypeError` raised by an
`insert_many` call) is converted into an entry of the errors tuple — every
error object in a normal return is a `TypeError` — and an insert exception of
any other class propagates out of `import_data` uncaught, at whichever of the
three stages it arises. -/
theorem import_data_only_typeError_recovered
    (fs : FileSystem) (store : Store) (dir pf cf rf : String) :
    (∀ counts errs, (import_data fs store dir pf cf rf).1 = .ok (counts, errs) →
      ∀ e ∈ errs, e.isTypeError = true)
    ∧ (∀ (pF : CSVFile) (pdocs : List Record) (e : PyExc),
        fs.files (dir ++ "/" ++ pf) = some pF →
        mapRows (Kind.mapRow .product) (dictRows pF) = .ok pdocs →
        store.insertMany "product_data" pdocs = some e → e.isTypeError = false →
        (import_data fs store dir pf cf rf).1 = .error e)
    ∧ (∀ (c1 : List Nat) (e1 : List PyExc) (t1 : List Event) (cF : CSVFile)
        (cdocs : List Record) (e : PyExc),
        processKind fs store (dir ++ "/" ++ pf) .product [] [] [Event.openConn] =
          (.ok (c1, e1), t1) →
        fs.files (dir ++ "/" ++ cf) = some cF →
        mapRows (Kind.mapRow .customer) (dictRows cF) = .ok cdocs →
        store.insertMany "customer_data" cdocs = some e → e.isTypeError = false →
        (import_data fs store dir pf cf rf).1 = .error e)
    ∧ (∀ (c1 c2 : List Nat) (e1 e2 : List PyExc) (t1 t2 : List Event) (rF : CSVFile)
        (rdocs : List Record) (e : PyExc),
        processKind fs store (dir ++ "/" ++ pf) .product [] [] [Event.openConn] =
          (.ok (c1, e1), t1) →
        processKind fs store (dir ++ "/" ++ cf) .customer c1 e1 t1 = (.ok (c2, e2), t2) →
        fs.files (dir ++ "/" ++ rf) = some rF →
        mapRows (Kind.mapRow .rental) (dictRows rF) = .ok rdocs →
        store.insertMany "rental_data" rdocs = some e → e.isTypeError = false →
        (import_data fs store dir pf cf rf).1 = .error e) := by
  refine ⟨?_, ?_, ?_, ?_⟩
  · intro counts errs h e he
    rw [import_data_eq_body] at h
    dsimp only at h
    rcases hb : importBody fs store dir pf cf rf [Event.openConn] with ⟨r, tr⟩
    rw [hb] at h
    dsimp only at h
    subst h
    obtain ⟨c1, e1, t1, c2, e2, t2, h1, h2, h3⟩ :=
      importBody_ok_cases fs store dir pf cf rf [Event.openConn] (counts, errs) tr hb
    have a1 := processKind_ok_errors_typeError fs store (dir ++ "/" ++ pf) .product [] []
      [Event.openConn] c1 e1 t1 h1 (by simp)
    have a2 := processKind_ok_errors_typeError fs store (dir ++ "/" ++ cf) .customer c1 e1
      t1 c2 e2 t2 h2 a1
    have a3 := processKind_ok_errors_typeError fs store (dir ++ "/" ++ rf) .rental c2 e2
      t2 counts errs tr h3 a2
    exact a3 e he
  · intro pF pdocs e hpF hmp hs ht
    have hst := processKind_insert_raises fs store (dir ++ "/" ++ pf) .product [] []
      [Event.openConn] pF pdocs e hpF hmp hs ht
    rw [import_data_eq_body]
    dsimp only
    rw [importBody_stage1_raises fs store dir pf cf rf [Event.openConn] _ e hst]
  · intro c1 e1 t1 cF cdocs e h1 hcF hmc hs ht
    have hst := processKind_insert_raises fs store (dir ++ "/" ++ cf) .customer c1 e1 t1
      cF cdocs e hcF hmc hs ht
    rw [import_data_eq_body]
    dsimp only
    rw [importBody_stage2_raises fs store dir pf cf rf [Event.openConn] t1 _ c1 e1 e h1 hst]
  · intro c1 c2 e1 e2 t1 t2 rF rdocs e h1 h2 hrF hmr hs ht
    have hst := processKind_insert_raises fs store (dir ++ "/" ++ rf) .rental c2 e2 t2
      rF rdocs e hrF hmr hs ht
    rw [import_data_eq_body]
    dsimp only
    rw [importBody_stage3_result fs store dir pf cf rf [Event.openConn] t1 t2 c1 c2 e1 e2
      h1 h2, hst]

/-- C3 witness: the recovered-`TypeError` run yields only `TypeError` error
entries, and a non-`TypeError` insert exception at each of the three stages
propagates out of the concrete runs. -/
theorem import_data_only_typeError_recovered_witness :
    (∀ e ∈ [PyExc.typeError 7], e.isTypeError = true)
    ∧ (import_data sampleFS productOtherErrorStore "data" "products.csv" "customers.csv"
        "rentals.csv").1 = .error (.otherExc 3)
    ∧ (import_data sampleFS customerOtherErrorStore "data" "products.csv" "customers.csv"
        "rentals.csv").1 = .error (.otherExc 4)
    ∧ (import_data sampleFS rentalOtherErrorStore "data" "products.csv" "customers.csv"
        "rentals.csv").1 = .error (.otherExc 5) := by
  refine ⟨?_, ?_, ?_, ?_⟩
  · exact (import_data_only_typeError_recovered sampleFS productTypeErrorStore "data"
      "products.csv" "customers.csv" "rentals.csv").1 [1, 1] [.typeError 7] rfl
  · exact (import_data_only_typeError_recovered sampleFS productOtherErrorStore "data"
      "products.csv" "customers.csv" "rentals.csv").2.1 sampleProductFile samplePdocs
      (.otherExc 3) rfl rfl rfl rfl
  · exact (import_data_only_typeError_recovered sampleFS customerOtherErrorStore "data"
      "products.csv" "customers.csv" "rentals.csv").2.2.1 [2] [] _ sampleCustomerFile
      sampleCdocs (.otherExc 4) rfl rfl rfl rfl rfl
  · exact (import_data_only_typeError_recovered sampleFS rentalOtherErrorStore "data"
      "products.csv" "customers.csv" "rentals.csv").2.2.2 [2] [2, 1] [] [] _ _
      sampleRentalFile sampleRdocs (.otherExc 5) rfl rfl rfl rfl rfl rfl

theorem mapRows_keyError_of_bad_row (k : Kind) (f : CSVFile)
    (hbad : ∃ r ∈ dictRows f, ∃ fld ∈ k.fields, rowGet r fld = .error (.keyError fld)) :
    ∃ fld ∈ k.fields, mapRows k.mapRow (dictRows f) = .error (.keyError fld) := by
  obtain ⟨r, hr, hfe⟩ := hbad
  obtain ⟨k0, hk0, hb⟩ := buildRecord_error_of_missing k.fields r hfe
  obtain ⟨e, he, r0, hr0, hm0⟩ := mapRows_error_of_exists k.mapRow (dictRows f)
    ⟨r, hr, .keyError k0, hb⟩
  obtain ⟨k1, hk1, hek⟩ := buildRecord_error_keyError k.fields r0 e hm0
  exact ⟨k1, hk1, hek ▸ he⟩

theorem insertCall_notin_of_events (coll path : String) (k : Kind)
    (hk : k.collection ≠ coll) (new : List Event)
    (hev : ∀ ev ∈ new, ev = Event.openFile path ∨
      ∃ docs, ev = Event.insertCall k.collection docs)
    (docs : List Record) : Event.insertCall coll docs ∉ new := by
  intro hmem
  rcases hev _ hmem with h | ⟨ds, h⟩
  · cases h
  · injection h with h1 h2
    exact hk h1.symm

/-- C4: a data row lacking one of its kind's expected fields makes the dict
literal raise a `KeyError` that `import_data` does not catch: the run
terminates with that `KeyError`, and no insert call for that kind's
collection is ever issued. -/
theorem import_data_missing_field_propagates
    (fs : FileSystem) (store : Store) (dir pf cf rf : String) :
    (∀ (pF : CSVFile),
        fs.files (dir ++ "/" ++ pf) = some pF →
        (∃ r ∈ dictRows pF, ∃ fld ∈ productFields,
          rowGet r fld = .error (.keyError fld)) →
        ∃ fld ∈ productFields,
          (import_data fs store dir pf cf rf).1 = .error (.keyError fld) ∧
          ∀ docs, Event.insertCall "product_data" docs ∉
            (import_data fs store dir pf cf rf).2)
    ∧ (∀ (c1 : List Nat) (e1 : List PyExc) (t1 : List Event) (cF : CSVFile),
        processKind fs store (dir ++ "/" ++ pf) .product [] [] [Event.openConn] =
          (.ok (c1, e1), t1) →
        fs.files (dir ++ "/" ++ cf) = some cF →
        (∃ r ∈ dictRows cF, ∃ fld ∈ customerFields,
          rowGet r fld = .error (.keyError fld)) →
        ∃ fld ∈ customerFields,
          (import_data fs store dir pf cf rf).1 = .error (.keyError fld) ∧
          ∀ docs, Event.insertCall "customer_data" docs ∉
            (import_data fs store dir pf cf rf).2)
    ∧ (∀ (c1 c2 : List Nat) (e1 e2 : List PyExc) (t1 t2 : List Event) (rF : CSVFile),
        processKind fs store (dir ++ "/" ++ pf) .product [] [] [Event.openConn] =
          (.ok (c1, e1), t1) →
        processKind fs store (dir ++ "/" ++ cf) .customer c1 e1 t1 = (.ok (c2, e2), t2) →
        fs.files (dir ++ "/" ++ rf) = some rF →
        (∃ r ∈ dictRows rF, ∃ fld ∈ rentalFields,
          rowGet r fld = .error (.keyError fld)) →
        ∃ fld ∈ rentalFields,
          (import_data fs store dir pf cf rf).1 = .error (.keyError fld) ∧
          ∀ docs, Event.insertCall "rental_data" docs ∉
            (import_data fs store dir pf cf rf).2) := by
  refine ⟨?_, ?_, ?_⟩
  · intro pF hpF hbad
    obtain ⟨fld, hfld, hmap⟩ := mapRows_keyError_of_bad_row .product pF hbad
    have hst := processKind_map_raises fs store (dir ++ "/" ++ pf) .product [] []
      [Event.openConn] pF (.keyError fld) hpF hmap
    have hb := importBody_stage1_raises fs store dir pf cf rf [Event.openConn] _ _ hst
    refine ⟨fld, hfld, ?_, ?_⟩
    · rw [import_data_eq_body]
      dsimp only
      rw [hb]
    · intro docs
      rw [import_data_eq_body]
      dsimp only
      rw [hb]
      simp
  · intro c1 e1 t1 cF h1 hcF hbad
    obtain ⟨fld, hfld, hmap⟩ := mapRows_keyError_of_bad_row .customer cF hbad
    have hst := processKind_map_raises fs store (dir ++ "/" ++ cf) .customer c1 e1 t1
      cF (.keyError fld) hcF hmap
    have hb := importBody_stage2_raises fs store dir pf cf rf [Event.openConn] t1 _ c1 e1
      _ h1 hst
    obtain ⟨n1, htr, hev⟩ := processKind_trace_events fs store (dir ++ "/" ++ pf) .product
      [] [] [Event.openConn]
    rw [h1] at htr
    dsimp only at htr
    have hnot1 : ∀ docs, Event.insertCall "customer_data" docs ∉ n1 := fun docs =>
      insertCall_notin_of_events "customer_data" (dir ++ "/" ++ pf) .product
        (by decide) n1 hev docs
    refine ⟨fld, hfld, ?_, ?_⟩
    · rw [import_data_eq_body]
      dsimp only
      rw [hb]
    · intro docs
      rw [import_data_eq_body]
      dsimp only
      rw [hb]
      dsimp only
      rw [htr]
      intro hmem
      simp only [List.mem_append, List.mem_cons, List.not_mem_nil, or_false] at hmem
      rcases hmem with ((h | h) | h) | h
      · cases h
      · exact hnot1 docs h
      · cases h
      · cases h
  · intro c1 c2 e1 e2 t1 t2 rF h1 h2 hrF hbad
    obtain ⟨fld, hfld, hmap⟩ := mapRows_keyError_of_bad_row .rental rF hbad
    have hst := processKind_map_raises fs store (dir ++ "/" ++ rf) .rental c2 e2 t2
      rF (.keyError fld) hrF hmap
    have hb3 := importBody_stage3_result fs store dir pf cf rf [Event.openConn] t1 t2
      c1 c2 e1 e2 h1 h2
    obtain ⟨n1, htr1, hev1⟩ := processKind_trace_events fs store (dir ++ "/" ++ pf)
      .product [] [] [Event.openConn]
    rw [h1] at htr1
    dsimp only at htr1
    obtain ⟨n2, htr2, hev2⟩ := processKind_trace_events fs store (dir ++ "/" ++ cf)
      .customer c1 e1 t1
    rw [h2] at htr2
    dsimp only at htr2
    have hnot1 : ∀ docs, Event.insertCall "rental_data" docs ∉ n1 := fun docs =>
      insertCall_notin_of_events "rental_data" (dir ++ "/" ++ pf) .product
        (by decide) n1 hev1 docs
    have hnot2 : ∀ docs, Event.insertCall "rental_data" docs ∉ n2 := fun docs =>
      insertCall_notin_of_events "rental_data" (dir ++ "/" ++ cf) .customer
        (by decide) n2 hev2 docs
    refine ⟨fld, hfld, ?_, ?_⟩
    · rw [import_data_eq_body]
      dsimp only
      rw [hb3, hst]
    · intro docs
      rw [import_data_eq_body]
      dsimp only
      rw [hb3, hst]
      dsimp only
      rw [htr2, htr1]
      intro hmem
      simp only [List.mem_append, List.mem_cons, List.not_mem_nil, or_false] at hmem
      rcases hmem with (((h | h) | h) | h) | h
      · cases h
      · exact hnot1 docs h
      · exact hnot2 docs h
      · cases h
      · cases h

/-- C4 witness: a product file lacking `product_type`, a customer file lacking
`address`, and the generator's rentals file lacking `rental_id`, each under an
accepting store. -/
theorem import_data_missing_field_propagates_witness :
    (∃ fld ∈ productFields,
      (import_data badProductFS acceptingStore "data" "products.csv" "customers.csv"
        "rentals.csv").1 = .error (.keyError fld) ∧
      ∀ docs, Event.insertCall "product_data" docs ∉
        (import_data badProductFS acceptingStore "data" "products.csv" "customers.csv"
          "rentals.csv").2)
    ∧ (∃ fld ∈ customerFields,
      (import_data badCustomerFS acceptingStore "data" "products.csv" "customers.csv"
        "rentals.csv").1 = .error (.keyError fld) ∧
      ∀ docs, Event.insertCall "customer_data" docs ∉
        (import_data badCustomerFS acceptingStore "data" "products.csv" "customers.csv"
          "rentals.csv").2)
    ∧ (∃ fld ∈ rentalFields,
      (import_data generatedRentalsFS acceptingStore "data" "products.csv" "customers.csv"
        "rentals.csv").1 = .error (.keyError fld) ∧
      ∀ docs, Event.insertCall "rental_data" docs ∉
        (import_data generatedRentalsFS acceptingStore "data" "products.csv" "customers.csv"
          "rentals.csv").2) := by
  refine ⟨?_, ?_, ?_⟩
  · exact (import_data_missing_field_propagates badProductFS acceptingStore "data"
      "products.csv" "customers.csv" "rentals.csv").1 badProductFile rfl
      ⟨dictRow ["product_id", "description"] ["P1", "Desk"], by decide,
        "product_type", by decide, rfl⟩
  · exact (import_data_missing_field_propagates badCustomerFS acceptingStore "data"
      "products.csv" "customers.csv" "rentals.csv").2.1 [2] [] _ badCustomerFile rfl rfl
      ⟨dictRow ["customer_id", "name"] ["C1", "Jo"], by decide, "address", by decide, rfl⟩
  · exact (import_data_missing_field_propagates generatedRentalsFS acceptingStore "data"
      "products.csv" "customers.csv" "rentals.csv").2.2 [2] [2, 1] [] [] _ _
      (generate_rentals [("C1", "P1")]) rfl rfl rfl
      ⟨dictRow rentalCSVHeader ["C1", "P1"], by decide, "rental_id", by decide, rfl⟩

/-- C8: `show_available_products` returns one mapping per product document
with `quantity_available` greater than 0, each mapping containing the fields
`product_id`, `description`, `product_type` and `quantity_available`. -/
theorem show_available_products_spec (products : List Record)
    (hshape : ∀ p ∈ products, ∀ k ∈ productFields, ∃ v, recordGet p k = some v) :
    (show_available_products products).length =
      (products.filter qtyAvailablePos).length
    ∧ ∀ m ∈ show_available_products products, ∀ k ∈ productFields,
        ∃ v, recordGet m k = some v := by
  constructor
  · simp [show_available_products]
  · intro m hm k hk
    unfold show_available_products at hm
    obtain ⟨p, hp, hmp⟩ := List.mem_map.mp hm
    have hp' : p ∈ products := List.mem_of_mem_filter hp
    obtain ⟨v1, h1⟩ := hshape p hp' "product_id" (by simp [productFields])
    obtain ⟨v2, h2⟩ := hshape p hp' "description" (by simp [productFields])
    obtain ⟨v3, h3⟩ := hshape p hp' "product_type" (by simp [productFields])
    obtain ⟨v4, h4⟩ := hshape p hp' "quantity_available" (by simp [productFields])
    have hm' : productFields.filterMap (fun k => (recordGet p k).map (fun v => (k, v))) =
        [("product_id", v1), ("description", v2), ("product_type", v3),
         ("quantity_available", v4)] := by
      simp [productFields, List.filterMap, h1, h2, h3, h4]
    rw [← hmp, hm']
    simp only [productFields, List.mem_cons, List.not_mem_nil, or_false] at hk
    rcases hk with rfl | rfl | rfl | rfl
    · exact ⟨v1, rfl⟩
    · exact ⟨v2, rfl⟩
    · exact ⟨v3, rfl⟩
    · exact ⟨v4, rfl⟩

/-- C8 witness: the spec's two sample products — one available, one with
quantity 0. -/
theorem show_available_products_spec_witness :
    (show_available_products samplePdocs).length =
      (samplePdocs.filter qtyAvailablePos).length
    ∧ ∀ m ∈ show_available_products samplePdocs, ∀ k ∈ productFields,
        ∃ v, recordGet m k = some v :=
  show_available_products_spec samplePdocs
    (by
      intro p hp k hk
      simp only [samplePdocs, List.mem_cons, List.not_mem_nil, or_false] at hp
      simp only [productFields, List.mem_cons, List.not_mem_nil, or_false] at hk
      rcases hp with rfl | rfl <;> rcases hk with rfl | rfl | rfl | rfl <;>
        exact ⟨_, rfl⟩)

/-- C10: the rentals file written by `generate_rentals` has exactly the header
fields `customer_id` and `product_id` and no `rental_id` column, so however
the random pairs come out, importing a nonempty generated file raises an
uncaught `KeyError` for `rental_id` at the first data row and `import_data`
terminates with it. -/
theorem generate_rentals_not_importable :
    (∀ pairs, (generate_rentals pairs).header = ["customer_id", "product_id"] ∧
      "rental_id" ∉ (generate_rentals pairs).header)
    ∧ (∀ (pr : String × String) (ps : List (String × String)),
        Kind.mapRow .rental (dictRow rentalCSVHeader [pr.1, pr.2]) =
          .error (.keyError "rental_id") ∧
        mapRows (Kind.mapRow .rental) (dictRows (generate_rentals (pr :: ps))) =
          .error (.keyError "rental_id"))
    ∧ (∀ (fs : FileSystem) (store : Store) (dir pf cf rf : String)
        (c1 c2 : List Nat) (e1 e2 : List PyExc) (t1 t2 : List Event)
        (pr : String × String) (ps : List (String × String)),
        processKind fs store (dir ++ "/" ++ pf) .product [] [] [Event.openConn] =
          (.ok (c1, e1), t1) →
        processKind fs store (dir ++ "/" ++ cf) .customer c1 e1 t1 = (.ok (c2, e2), t2) →
        fs.files (dir ++ "/" ++ rf) = some (generate_rentals (pr :: ps)) →
        (import_data fs store dir pf cf rf).1 = .error (.keyError "rental_id")) := by
  refine ⟨?_, ?_, ?_⟩
  · intro pairs
    refine ⟨rfl, ?_⟩
    show "rental_id" ∉ ["customer_id", "product_id"]
    decide
  · intro pr ps
    exact ⟨rfl, rfl⟩
  · intro fs store dir pf cf rf c1 c2 e1 e2 t1 t2 pr ps h1 h2 hrF
    have hmap : mapRows (Kind.mapRow .rental) (dictRows (generate_rentals (pr :: ps))) =
        .error (.keyError "rental_id") := rfl
    have hst := processKind_map_raises fs store (dir ++ "/" ++ rf) .rental c2 e2 t2
      (generate_rentals (pr :: ps)) (.keyError "rental_id") hrF hmap
    rw [import_data_eq_body]
    dsimp only
    rw [importBody_stage3_result fs store dir pf cf rf [Event.openConn] t1 t2 c1 c2 e1 e2
      h1 h2, hst]

/-- C10 witness: one generated rental pair under an otherwise well-formed
directory and an accepting store. -/
theorem generate_rentals_not_importable_witness :
    ((generate_rentals [("C1", "P1")]).header = ["customer_id", "product_id"] ∧
      "rental_id" ∉ (generate_rentals [("C1", "P1")]).header)
    ∧ (Kind.mapRow .rental (dictRow rentalCSVHeader ["C1", "P1"]) =
        .error (.keyError "rental_id") ∧
      mapRows (Kind.mapRow .rental) (dictRows (generate_rentals [("C1", "P1")])) =
        .error (.keyError "rental_id"))
    ∧ (import_data generatedRentalsFS acceptingStore "data" "products.csv"
        "customers.csv" "rentals.csv").1 = .error (.keyError "rental_id") := by
  refine ⟨?_, ?_, ?_⟩
  · exact (generate_rentals_not_importable).1 [("C1", "P1")]
  · exact (generate_rentals_not_importable).2.1 ("C1", "P1") []
  · exact (generate_rentals_not_importable).2.2 generatedRentalsFS acceptingStore "data"
      "products.csv" "customers.csv" "rentals.csv" [2] [2, 1] [] [] _ _ ("C1", "P1") []
      rfl rfl rfl

end HPNorton
